import Mathlib

/-!
Shallow embedding of the x402 performance-benchmarking example
(`examples/typescript/clients/performance-benchmarking/index.ts`) and proofs
about it.

Modelling conventions:
* JavaScript `number` durations and rates are modelled as `ℚ`.  Every
  comparison the embedded code performs is on values where double rounding
  cannot change the outcome; in particular `Math.floor(n * q)` for
  `q ∈ {0.5, 0.95, 0.99}` agrees with the exact rational floor for every
  array length `n`, because the relative error of the double nearest to `q`
  is below the half-ulp of any product `n * q` that is near an integer.
  The floors are therefore embedded as the natural-number divisions
  `n * 1 / 2`, `n * 19 / 20`, `n * 99 / 100`.
* `Math.round` rounds half toward +∞, i.e. `⌊x + 1/2⌋`.
* Fallible code (`throw new Error(...)`) is embedded with `Except String`.
* Asynchronous effects (timers, HTTP probes) are abstracted as oracle
  functions passed in as arguments: a trial oracle yields, per trial index,
  whether the operation succeeded and its elapsed time; a probe oracle
  yields, per URL, the latency the probe returned (a non-negative elapsed
  time on success, `-1` on failure, exactly the two outcomes of
  `measureFacilitatorLatency` / `measureRpcLatency`).
-/

/-- JavaScript `Math.round`: round half toward positive infinity,
`⌊q + 1/2⌋` (written with the executable `Rat.floor`, which equals
`Int.floor`; see `jsRound_eq_floor`). -/
def jsRound (q : ℚ) : ℤ := (q + 1 / 2).floor

/-- `Math.round(x * 100) / 100`, the 2-decimal rounding used throughout
`calculateStats`. -/
def round2 (q : ℚ) : ℚ := (jsRound (q * 100) : ℚ) / 100

/-- The `BenchmarkResult` interface of the source. -/
structure BenchmarkResult where
  operation : String
  iterations : ℕ
  totalTimeMs : ℚ
  avgTimeMs : ℚ
  minTimeMs : ℚ
  maxTimeMs : ℚ
  p50Ms : ℚ
  p95Ms : ℚ
  p99Ms : ℚ
  opsPerSecond : ℚ
  success : ℕ
  errors : ℕ
  errorRate : ℚ
  deriving Repr, DecidableEq

/-- The `NetworkMetrics` interface of the source. -/
structure NetworkMetrics where
  facilitatorLatency : ℚ
  rpcLatency : ℚ
  totalRoundTrips : ℕ
  dataTransferred : ℚ
  deriving Repr, DecidableEq

/-- `PerformanceBenchmarker.calculateStats`.  The measurements list is the
`this.measurements` field at call time.  `sorted` is
`measurements.slice().sort((a, b) => a - b)`, an ascending sort; the
percentile reads are `sorted[Math.floor(sorted.length * q)]` (see the header
comment for why the floors are exact). -/
def calculateStats (operation : String) (iterations : ℕ) (totalTimeMs : ℚ)
    (success errors : ℕ) (measurements : List ℚ) : Except String BenchmarkResult :=
  if measurements.length = 0 then
    Except.error "No measurements recorded"
  else
    let sorted := measurements.insertionSort (fun a b => a ≤ b)
    let avgTimeMs := measurements.sum / (measurements.length : ℚ)
    Except.ok
      { operation := operation
        iterations := iterations
        totalTimeMs := totalTimeMs
        avgTimeMs := round2 avgTimeMs
        minTimeMs := round2 (sorted.getD 0 0)
        maxTimeMs := round2 (sorted.getD (sorted.length - 1) 0)
        p50Ms := round2 (sorted.getD (sorted.length * 1 / 2) 0)
        p95Ms := round2 (sorted.getD (sorted.length * 19 / 20) 0)
        p99Ms := round2 (sorted.getD (sorted.length * 99 / 100) 0)
        opsPerSecond := (jsRound ((iterations : ℚ) / totalTimeMs * 1000) : ℚ)
        success := success
        errors := errors
        errorRate := round2 ((errors : ℚ) / (iterations : ℚ) * 100) }

/-- The measured phase of `PerformanceBenchmarker.benchmark`: the `for` loop
over `iterations` trials.  `testFn i` is the outcome of trial `i`: a success
flag and the elapsed time `performance.now() - iterationStart` (recorded in
both the `try` and the `catch` branch).  Returns the `measurements` list and
the `successCount` / `errorCount` pair. -/
def runTrials (testFn : ℕ → Bool × ℚ) : ℕ → List ℚ × ℕ × ℕ
  | 0 => ([], 0, 0)
  | n + 1 =>
    let acc := runTrials testFn n
    let out := testFn n
    if out.1 then (acc.1 ++ [out.2], acc.2.1 + 1, acc.2.2)
    else (acc.1 ++ [out.2], acc.2.1, acc.2.2 + 1)

/-- `PerformanceBenchmarker.benchmark` after the warmup round: run the trials
and hand measurements and counts to `calculateStats`.  `totalTimeMs` is the
wall-clock `Date.now()` span, an independent measurement abstracted as an
argument. -/
def benchmark (operation : String) (testFn : ℕ → Bool × ℚ) (iterations : ℕ)
    (totalTimeMs : ℚ) : Except String BenchmarkResult :=
  let r := runTrials testFn iterations
  calculateStats operation iterations totalTimeMs r.2.1 r.2.2 r.1

/-- Fuel-indexed version of the batching loop of
`benchmarkBatchOperations`: `for (let i = 0; ...; i += concurrency)
batches.push(endpoints.slice(i, i + concurrency))`.  For `0 < k` the loop
consumes at least one element per step, so fuel `l.length` (see `chunks`)
makes the recursion total without changing any value the loop produces. -/
def chunksGo (k : ℕ) : ℕ → List String → List (List String)
  | 0, _ => []
  | _, [] => []
  | fuel + 1, l => l.take k :: chunksGo k fuel (l.drop k)

/-- The `batches` list built by `benchmarkBatchOperations`. -/
def chunks (k : ℕ) (l : List String) : List (List String) := chunksGo k l.length l

/-- One trial of the batch benchmark: for each batch in order, fan out
`client.get` on every endpoint of the batch and collect every settled
outcome (`Promise.allSettled`: no outcome short-circuits its siblings).
`get e` is the settled outcome of requesting endpoint `e`. -/
def batchTrial (get : String → Except String Unit) (batches : List (List String)) :
    List (List (Except String Unit)) :=
  batches.map (fun batch => batch.map (fun e => get e))

/-- `PerformanceBenchmarker.benchmarkBatchOperations`: build the batches,
then run `benchmark` with `Math.min(10, batches.length)` iterations. -/
def benchmarkBatchOperations (endpoints : List String) (concurrency : ℕ)
    (testFn : ℕ → Bool × ℚ) (totalTimeMs : ℚ) : Except String BenchmarkResult :=
  let batches := chunks concurrency endpoints
  benchmark (s!"Batch Operations (concurrency: {concurrency})") testFn
    (min 10 batches.length) totalTimeMs

/-- The hardcoded facilitator endpoint list of `NetworkAnalyzer.analyzeNetwork`. -/
def facilitators : List String :=
  ["https://facilitator.x402.org",
   "https://facilitator.thirdweb.com",
   "https://facilitator.xpay.sh"]

/-- The hardcoded RPC endpoint list of `NetworkAnalyzer.analyzeNetwork`. -/
def rpcEndpoints : List String :=
  ["https://mainnet.base.org",
   "https://base-mainnet.public.blastapi.io",
   "https://base.gateway.tenderly.co"]

/-- `NetworkAnalyzer.analyzeNetwork`.  `facProbe` / `rpcProbe` give each
probe's returned value: `measureFacilitatorLatency` and `measureRpcLatency`
return a non-negative elapsed time on success and `-1` on any failure,
never throwing.  The analyzer filters with `l => l > 0` and averages, using
`-1` when no probe passed the filter. -/
def analyzeNetwork (facProbe rpcProbe : String → ℚ) : NetworkMetrics :=
  let facilitatorLatencies := facilitators.map facProbe
  let rpcLatencies := rpcEndpoints.map rpcProbe
  let validFacilitatorLatencies := facilitatorLatencies.filter (fun l => decide (0 < l))
  let validRpcLatencies := rpcLatencies.filter (fun l => decide (0 < l))
  { facilitatorLatency :=
      if 0 < validFacilitatorLatencies.length then
        validFacilitatorLatencies.sum / (validFacilitatorLatencies.length : ℚ)
      else -1
    rpcLatency :=
      if 0 < validRpcLatencies.length then
        validRpcLatencies.sum / (validRpcLatencies.length : ℚ)
      else -1
    totalRoundTrips := facilitators.length + rpcEndpoints.length
    dataTransferred := 0 }

/-- Refinement comparison only — follows the spec's words, not the source:
the average of a latency class excludes exactly the sentinel (failed)
results, so every non-negative latency of a successful probe (including a
true zero-latency measurement) contributes; sentinel if none succeeded. -/
def specClassAverage (latencies : List ℚ) : ℚ :=
  let valid := latencies.filter (fun l => decide (0 ≤ l))
  if 0 < valid.length then valid.sum / (valid.length : ℚ) else -1

/-- The recommendation lines pushed by the high-average-latency rule of
`displayOptimizations`. -/
def recsHighLatency : List String :=
  ["High average latency detected. Consider:",
   "  • Using a closer RPC endpoint",
   "  • Implementing request caching",
   "  • Using connection pooling"]

/-- The recommendation lines pushed by the facilitator-latency rule. -/
def recsFacilitator : List String :=
  ["Facilitator latency is high. Consider:",
   "  • Using a geographically closer facilitator",
   "  • Implementing facilitator health checking"]

/-- The recommendation lines pushed by the elevated-error-rate rule. -/
def recsErrorRate : List String :=
  ["Error rate is elevated. Consider:",
   "  • Implementing retry logic with exponential backoff",
   "  • Adding circuit breaker patterns",
   "  • Monitoring facilitator health"]

/-- The recommendation lines pushed by the low-throughput rule. -/
def recsLowThroughput : List String :=
  ["Low throughput detected. Consider:",
   "  • Batching requests when possible",
   "  • Using connection keep-alive",
   "  • Optimizing payload sizes"]

/-- The positive message printed when no rule fired. -/
def noActionMessage : String :=
  "✅ Performance looks good! No immediate optimizations needed."

/-- `results.reduce((sum, r) => sum + r.avgTimeMs, 0) / results.length`. -/
def avgLatency (results : List BenchmarkResult) : ℚ :=
  (results.map (fun r => r.avgTimeMs)).sum / (results.length : ℚ)

/-- The guard `avgLatency > 500` of the first rule.  For an empty result
list the source computes `0 / 0 = NaN` and `NaN > 500` is false in
JavaScript, so the rule never fires on empty input; the embedding makes
that explicit with an emptiness test. -/
def avgLatencyHigh (results : List BenchmarkResult) : Bool :=
  !results.isEmpty && decide (avgLatency results > 500)

/-- The guard `Math.max(...results.map(r => r.opsPerSecond)) < 10` of the
fourth rule.  `Math.max()` of an empty spread is `-Infinity`, which is below
`10`, so the rule fires on an empty result list; the embedding uses
`List.maximum`, whose `none` value plays the role of `-Infinity`. -/
def maxOpsLow (results : List BenchmarkResult) : Bool :=
  match (results.map (fun r => r.opsPerSecond)).maximum with
  | none => true
  | some m => decide (m < 10)

/-- The `recommendations` array built by `displayOptimizations`: the four
rules are evaluated in source order and each fired rule appends its lines. -/
def recommendations (results : List BenchmarkResult) (networkMetrics : NetworkMetrics) :
    List String :=
  (if avgLatencyHigh results then recsHighLatency else [])
    ++ (if decide (networkMetrics.facilitatorLatency > 200) then recsFacilitator else [])
    ++ (if results.any (fun r => decide (r.errorRate > 5)) then recsErrorRate else [])
    ++ (if maxOpsLow results then recsLowThroughput else [])

/-- The lines `displayOptimizations` emits: the positive message when no
rule fired, otherwise the collected recommendations. -/
def displayOptimizations (results : List BenchmarkResult) (networkMetrics : NetworkMetrics) :
    List String :=
  let recs := recommendations results networkMetrics
  if recs.isEmpty then [noActionMessage] else recs

/-- The 100 samples with values 1..100 ms used by the spec's worked example. -/
def samples100 : List ℚ := (List.range 100).map (fun i => ((i + 1 : ℕ) : ℚ))

/-- Twelve endpoints, for the worked batch-benchmark example. -/
def endpoints12 : List String :=
  ["http://e1", "http://e2", "http://e3", "http://e4", "http://e5", "http://e6",
   "http://e7", "http://e8", "http://e9", "http://e10", "http://e11", "http://e12"]

/-- Probe outcome used against C7: the first facilitator succeeds with a true
zero-latency measurement, the second succeeds with 10 ms, the third fails. -/
def cexFacProbe : String → ℚ := fun u =>
  if u = "https://facilitator.x402.org" then 0
  else if u = "https://facilitator.thirdweb.com" then 10
  else -1

/-- Probe outcome with every RPC probe failing. -/
def cexRpcProbe : String → ℚ := fun _ => -1

/-- Fixture: a result with `avgTimeMs = 600`, `errorRate = 0`,
`opsPerSecond = 50` (the spec's high-latency worked example). -/
def highLatencyResult : BenchmarkResult :=
  { operation := "bench", iterations := 100, totalTimeMs := 2000,
    avgTimeMs := 600, minTimeMs := 500, maxTimeMs := 700, p50Ms := 600,
    p95Ms := 690, p99Ms := 699, opsPerSecond := 50, success := 100,
    errors := 0, errorRate := 0 }

/-- Fixture: a result with good metrics (`avgTimeMs = 50`, `errorRate = 0`,
`opsPerSecond = 100`). -/
def goodResult : BenchmarkResult :=
  { operation := "bench", iterations := 100, totalTimeMs := 1000,
    avgTimeMs := 50, minTimeMs := 40, maxTimeMs := 60, p50Ms := 50,
    p95Ms := 59, p99Ms := 60, opsPerSecond := 100, success := 100,
    errors := 0, errorRate := 0 }

/-- Fixture: network metrics with `facilitatorLatency = 50`. -/
def metrics50 : NetworkMetrics :=
  { facilitatorLatency := 50, rpcLatency := 40, totalRoundTrips := 6,
    dataTransferred := 0 }

/-! ### Helper lemmas -/

theorem jsRound_eq_floor (q : ℚ) : jsRound q = ⌊q + 1 / 2⌋ := by
  rw [jsRound, Rat.floor_def', Rat.floor_def]

theorem floor_half : ⌊(1 / 2 : ℚ)⌋ = 0 := by
  rw [Int.floor_eq_iff] <;> norm_num

theorem jsRound_intCast (z : ℤ) : jsRound (z : ℚ) = z := by
  rw [jsRound_eq_floor, Int.floor_int_add, floor_half, add_zero]

theorem round2_intCast (z : ℤ) : round2 (z : ℚ) = z := by
  have h : ((z : ℚ) * 100) = ((z * 100 : ℤ) : ℚ) := by push_cast; ring
  rw [round2, h, jsRound_intCast]
  push_cast
  field_simp

theorem round2_natCast (n : ℕ) : round2 (n : ℚ) = n := by
  simpa using round2_intCast (n : ℤ)

theorem round2_mono {a b : ℚ} (h : a ≤ b) : round2 a ≤ round2 b := by
  rw [round2, round2]
  have hfl : jsRound (a * 100) ≤ jsRound (b * 100) := by
    rw [jsRound_eq_floor, jsRound_eq_floor]
    exact Int.floor_le_floor (by linarith)
  have : ((jsRound (a * 100) : ℚ)) ≤ (jsRound (b * 100) : ℚ) := by exact_mod_cast hfl
  linarith

theorem sorted_getD_le (ms : List ℚ) {i j : ℕ} (hij : i ≤ j)
    (hj : j < (ms.insertionSort (fun a b => a ≤ b)).length) :
    (ms.insertionSort (fun a b => a ≤ b)).getD i 0 ≤
      (ms.insertionSort (fun a b => a ≤ b)).getD j 0 := by
  rw [List.getD_eq_get _ _ (lt_of_le_of_lt hij hj), List.getD_eq_get _ _ hj]
  exact (List.sorted_insertionSort _ ms).rel_get_of_le hij

set_option maxRecDepth 4000 in
theorem samples100_insertionSort :
    samples100.insertionSort (fun a b => a ≤ b) = samples100 := by decide

theorem samples100_length : samples100.length = 100 := by decide

theorem samples100_getD50 : samples100.getD 50 0 = 51 := by decide

theorem samples100_getD95 : samples100.getD 95 0 = 96 := by decide

theorem samples100_getD99 : samples100.getD 99 0 = 100 := by decide

theorem calculateStats_ok (op : String) (it : ℕ) (tt : ℚ) (s e : ℕ) (ms : List ℚ)
    (h : ms ≠ []) :
    ∃ r, calculateStats op it tt s e ms = Except.ok r ∧
      r.success = s ∧ r.errors = e ∧ r.operation = op ∧ r.iterations = it := by
  have hn : ¬ ms.length = 0 := by simpa [List.length_eq_zero] using h
  rw [calculateStats, if_neg hn]
  exact ⟨_, rfl, rfl, rfl, rfl, rfl⟩

/-! ### Claims -/

/-- C5: `calculateStats` signals a usage error exactly when the sample
collection is empty, and for every non-empty collection — whatever the
success/error split, including all-failed — it returns a complete
`BenchmarkResult` carrying the given counts without raising. -/
theorem calculateStats_error_iff_empty :
    (∀ op it tt s e, calculateStats op it tt s e [] =
      Except.error "No measurements recorded")
    ∧ (∀ op it tt (s e : ℕ) (ms : List ℚ), ms ≠ [] →
        ∃ r, calculateStats op it tt s e ms = Except.ok r ∧
          r.success = s ∧ r.errors = e ∧ r.operation = op ∧ r.iterations = it) := by
  constructor
  · intro op it tt s e
    rfl
  · intro op it tt s e ms h
    exact calculateStats_ok op it tt s e ms h

/-- Witness for C5: the all-failed singleton collection `[7]` with
`success = 0`, `errors = 1` yields a result without raising. -/
theorem calculateStats_error_iff_empty_witness :
    ([(7 : ℚ)] ≠ []) ∧
      ∃ r, calculateStats "op" 1 5 0 1 [(7 : ℚ)] = Except.ok r ∧
        r.success = 0 ∧ r.errors = 1 ∧ r.operation = "op" ∧ r.iterations = 1 :=
  ⟨by simp, calculateStats_error_iff_empty.2 "op" 1 5 0 1 [(7 : ℚ)] (by simp)⟩

/-- C1: every percentile of `calculateStats` is the element of the
ascending-sorted sample collection at index `floor(n * q)` clamped to
`[0, n-1]` (the clamp is inert: the floor index is already in range) with no
interpolation — the value read is itself a sample of the collection; for
the 100 samples 1..100 ms, `p50Ms = 51`, `p95Ms = 96`, `p99Ms = 100`. -/
theorem percentile_floor_index :
    (∀ (op : String) (it : ℕ) (tt : ℚ) (s e : ℕ) (ms : List ℚ), ms ≠ [] →
      ∃ r, calculateStats op it tt s e ms = Except.ok r ∧
        r.p50Ms = round2 ((ms.insertionSort (fun a b => a ≤ b)).getD
          (min (ms.length * 1 / 2) (ms.length - 1)) 0) ∧
        r.p95Ms = round2 ((ms.insertionSort (fun a b => a ≤ b)).getD
          (min (ms.length * 19 / 20) (ms.length - 1)) 0) ∧
        r.p99Ms = round2 ((ms.insertionSort (fun a b => a ≤ b)).getD
          (min (ms.length * 99 / 100) (ms.length - 1)) 0) ∧
        (ms.insertionSort (fun a b => a ≤ b)).getD (ms.length * 1 / 2) 0 ∈ ms ∧
        (ms.insertionSort (fun a b => a ≤ b)).getD (ms.length * 19 / 20) 0 ∈ ms ∧
        (ms.insertionSort (fun a b => a ≤ b)).getD (ms.length * 99 / 100) 0 ∈ ms)
    ∧ (∃ r, calculateStats "range100" 100 0 100 0 samples100 = Except.ok r ∧
        r.p50Ms = 51 ∧ r.p95Ms = 96 ∧ r.p99Ms = 100) := by
  have hgen : ∀ (op : String) (it : ℕ) (tt : ℚ) (s e : ℕ) (ms : List ℚ), ms ≠ [] →
      ∃ r, calculateStats op it tt s e ms = Except.ok r ∧
        r.p50Ms = round2 ((ms.insertionSort (fun a b => a ≤ b)).getD
          (min (ms.length * 1 / 2) (ms.length - 1)) 0) ∧
        r.p95Ms = round2 ((ms.insertionSort (fun a b => a ≤ b)).getD
          (min (ms.length * 19 / 20) (ms.length - 1)) 0) ∧
        r.p99Ms = round2 ((ms.insertionSort (fun a b => a ≤ b)).getD
          (min (ms.length * 99 / 100) (ms.length - 1)) 0) ∧
        (ms.insertionSort (fun a b => a ≤ b)).getD (ms.length * 1 / 2) 0 ∈ ms ∧
        (ms.insertionSort (fun a b => a ≤ b)).getD (ms.length * 19 / 20) 0 ∈ ms ∧
        (ms.insertionSort (fun a b => a ≤ b)).getD (ms.length * 99 / 100) 0 ∈ ms := by
    intro op it tt s e ms h
    have hpos : 0 < ms.length := List.length_pos.2 h
    have hn : ¬ ms.length = 0 := by omega
    have h50 : ms.length * 1 / 2 ≤ ms.length - 1 := by omega
    have h95 : ms.length * 19 / 20 ≤ ms.length - 1 := by omega
    have h99 : ms.length * 99 / 100 ≤ ms.length - 1 := by omega
    have hmem : ∀ i : ℕ, i < ms.length →
        (ms.insertionSort (fun a b => a ≤ b)).getD i 0 ∈ ms := by
      intro i hi
      have hlt : i < (ms.insertionSort (fun a b => a ≤ b)).length := by
        rw [List.length_insertionSort]; exact hi
      rw [List.getD_eq_getElem _ _ hlt]
      rw [← List.mem_insertionSort (r := fun a b : ℚ => a ≤ b)]
      exact List.getElem_mem hlt
    rw [calculateStats, if_neg hn]
    refine ⟨_, rfl, ?_, ?_, ?_, ?_, ?_, ?_⟩
    · simp only [List.length_insertionSort, Nat.min_eq_left h50]
    · simp only [List.length_insertionSort, Nat.min_eq_left h95]
    · simp only [List.length_insertionSort, Nat.min_eq_left h99]
    · exact hmem _ (by omega)
    · exact hmem _ (by omega)
    · exact hmem _ (by omega)
  refine ⟨hgen, ?_⟩
  obtain ⟨r, hr, h1, h2, h3, _, _, _⟩ :=
    hgen "range100" 100 0 100 0 samples100 (by decide)
  refine ⟨r, hr, ?_, ?_, ?_⟩
  · rw [h1, samples100_insertionSort, samples100_length]
    norm_num [samples100_getD50]
    simpa using round2_natCast 51
  · rw [h2, samples100_insertionSort, samples100_length]
    norm_num [samples100_getD95]
    simpa using round2_natCast 96
  · rw [h3, samples100_insertionSort, samples100_length]
    norm_num [samples100_getD99]
    simpa using round2_natCast 100

/-- Witness for C1 at the singleton collection `[7]`. -/
theorem percentile_floor_index_witness :
    ([(7 : ℚ)] ≠ []) ∧
      (∃ r, calculateStats "w" 1 0 1 0 [(7 : ℚ)] = Except.ok r ∧
        r.p50Ms = round2 (([(7 : ℚ)].insertionSort (fun a b => a ≤ b)).getD
          (min ([(7 : ℚ)].length * 1 / 2) ([(7 : ℚ)].length - 1)) 0) ∧
        r.p95Ms = round2 (([(7 : ℚ)].insertionSort (fun a b => a ≤ b)).getD
          (min ([(7 : ℚ)].length * 19 / 20) ([(7 : ℚ)].length - 1)) 0) ∧
        r.p99Ms = round2 (([(7 : ℚ)].insertionSort (fun a b => a ≤ b)).getD
          (min ([(7 : ℚ)].length * 99 / 100) ([(7 : ℚ)].length - 1)) 0) ∧
        ([(7 : ℚ)].insertionSort (fun a b => a ≤ b)).getD ([(7 : ℚ)].length * 1 / 2) 0 ∈ [(7 : ℚ)] ∧
        ([(7 : ℚ)].insertionSort (fun a b => a ≤ b)).getD ([(7 : ℚ)].length * 19 / 20) 0 ∈ [(7 : ℚ)] ∧
        ([(7 : ℚ)].insertionSort (fun a b => a ≤ b)).getD ([(7 : ℚ)].length * 99 / 100) 0 ∈ [(7 : ℚ)]) :=
  ⟨by simp, percentile_floor_index.1 "w" 1 0 1 0 [(7 : ℚ)] (by simp)⟩

/-- C2: for every non-empty sample collection the rounded summary satisfies
`minTimeMs ≤ p50Ms ≤ p95Ms ≤ p99Ms ≤ maxTimeMs`. -/
theorem stats_percentile_order :
    ∀ (op : String) (it : ℕ) (tt : ℚ) (s e : ℕ) (ms : List ℚ), ms ≠ [] →
      ∃ r, calculateStats op it tt s e ms = Except.ok r ∧
        r.minTimeMs ≤ r.p50Ms ∧ r.p50Ms ≤ r.p95Ms ∧
        r.p95Ms ≤ r.p99Ms ∧ r.p99Ms ≤ r.maxTimeMs := by
  intro op it tt s e ms h
  have hpos : 0 < ms.length := List.length_pos.2 h
  have hn : ¬ ms.length = 0 := by omega
  have hlen : (ms.insertionSort (fun a b => a ≤ b)).length = ms.length :=
    List.length_insertionSort _ ms
  rw [calculateStats, if_neg hn]
  refine ⟨_, rfl, ?_, ?_, ?_, ?_⟩
  · exact round2_mono (sorted_getD_le ms (Nat.zero_le _) (by rw [hlen]; omega))
  · refine round2_mono (sorted_getD_le ms ?_ (by rw [hlen]; omega))
    rw [hlen]; omega
  · refine round2_mono (sorted_getD_le ms ?_ (by rw [hlen]; omega))
    rw [hlen]; omega
  · refine round2_mono (sorted_getD_le ms ?_ (by rw [hlen]; omega))
    rw [hlen]; omega

/-- Witness for C2 at the two-element collection `[9, 4]`. -/
theorem stats_percentile_order_witness :
    ([(9 : ℚ), 4] ≠ []) ∧
      (∃ r, calculateStats "w" 2 0 2 0 [(9 : ℚ), 4] = Except.ok r ∧
        r.minTimeMs ≤ r.p50Ms ∧ r.p50Ms ≤ r.p95Ms ∧
        r.p95Ms ≤ r.p99Ms ∧ r.p99Ms ≤ r.maxTimeMs) :=
  ⟨by simp, stats_percentile_order "w" 2 0 2 0 [(9 : ℚ), 4] (by simp)⟩

theorem runTrials_spec (f : ℕ → Bool × ℚ) :
    ∀ n, (runTrials f n).1.length = n ∧ (runTrials f n).2.1 + (runTrials f n).2.2 = n := by
  intro n
  induction n with
  | zero => simp [runTrials]
  | succ k ih =>
    obtain ⟨h1, h2⟩ := ih
    by_cases hb : (f k).1 <;> simp [runTrials, hb, h1] <;> omega

/-- C3: a Harness run of `n` trials records exactly `n` samples (one per
trial, failed or not), passes them all to `calculateStats`, and the returned
result satisfies `success + errors = n` with `iterations = n`. -/
theorem harness_counts :
    ∀ (op : String) (f : ℕ → Bool × ℚ) (n : ℕ) (tt : ℚ), 0 < n →
      (runTrials f n).1.length = n ∧
      (runTrials f n).2.1 + (runTrials f n).2.2 = n ∧
      ∃ r, benchmark op f n tt = Except.ok r ∧
        r.success + r.errors = n ∧ r.iterations = n := by
  intro op f n tt hn
  obtain ⟨h1, h2⟩ := runTrials_spec f n
  refine ⟨h1, h2, ?_⟩
  have hne : (runTrials f n).1 ≠ [] := by
    rw [← List.length_pos, h1]; exact hn
  obtain ⟨r, hr, hs, he, _, hit⟩ :=
    calculateStats_ok op n tt (runTrials f n).2.1 (runTrials f n).2.2 (runTrials f n).1 hne
  refine ⟨r, ?_, ?_, hit⟩
  · rw [benchmark]; exact hr
  · rw [hs, he]; exact h2

/-- Witness for C3: two trials, the second failing. -/
theorem harness_counts_witness :
    (0 < 2) ∧
      ((runTrials (fun i => (i == 0, (5 : ℚ))) 2).1.length = 2 ∧
       (runTrials (fun i => (i == 0, (5 : ℚ))) 2).2.1 +
         (runTrials (fun i => (i == 0, (5 : ℚ))) 2).2.2 = 2 ∧
       ∃ r, benchmark "w" (fun i => (i == 0, (5 : ℚ))) 2 1 = Except.ok r ∧
         r.success + r.errors = 2 ∧ r.iterations = 2) :=
  ⟨by decide, harness_counts "w" (fun i => (i == 0, (5 : ℚ))) 2 1 (by decide)⟩

theorem chunksGo_nil (k : ℕ) : ∀ fuel, chunksGo k fuel [] = [] := by
  intro fuel
  cases fuel <;> rfl

theorem chunksGo_fuel_eq (k : ℕ) (hk : 0 < k) :
    ∀ (f1 : ℕ) (l : List String) (f2 : ℕ), l.length ≤ f1 → l.length ≤ f2 →
      chunksGo k f1 l = chunksGo k f2 l := by
  intro f1
  induction f1 with
  | zero =>
    intro l f2 h1 _
    have : l = [] := List.length_eq_zero.1 (Nat.le_zero.1 h1)
    subst this
    rw [chunksGo_nil, chunksGo_nil]
  | succ f ih =>
    intro l f2 h1 h2
    cases l with
    | nil => rw [chunksGo_nil, chunksGo_nil]
    | cons a t =>
      cases f2 with
      | zero => simp at h2
      | succ f2 =>
        show (a :: t).take k :: chunksGo k f ((a :: t).drop k)
            = (a :: t).take k :: chunksGo k f2 ((a :: t).drop k)
        have hd : ((a :: t).drop k).length ≤ f := by
          simp only [List.length_drop, List.length_cons]
          simp only [List.length_cons] at h1
          omega
        have hd2 : ((a :: t).drop k).length ≤ f2 := by
          simp only [List.length_drop, List.length_cons]
          simp only [List.length_cons] at h2
          omega
        rw [ih _ _ hd hd2]

theorem chunks_cons (k : ℕ) (hk : 0 < k) (l : List String) (h : l ≠ []) :
    chunks k l = l.take k :: chunks k (l.drop k) := by
  cases l with
  | nil => exact absurd rfl h
  | cons a t =>
    show (a :: t).take k :: chunksGo k t.length ((a :: t).drop k)
        = (a :: t).take k :: chunks k ((a :: t).drop k)
    rw [chunksGo_fuel_eq k hk t.length ((a :: t).drop k) ((a :: t).drop k).length]
    · rfl
    · rw [List.length_drop]; simp only [List.length_cons]; omega
    · exact Nat.le_refl _

theorem chunksGo_flatten (k : ℕ) (hk : 0 < k) :
    ∀ (fuel : ℕ) (l : List String), l.length ≤ fuel →
      (chunksGo k fuel l).flatten = l := by
  intro fuel
  induction fuel with
  | zero =>
    intro l h
    have : l = [] := List.length_eq_zero.1 (Nat.le_zero.1 h)
    subst this
    rfl
  | succ f ih =>
    intro l h
    cases l with
    | nil => rfl
    | cons a t =>
      show (((a :: t).take k) :: chunksGo k f ((a :: t).drop k)).flatten = a :: t
      rw [List.flatten_cons, ih _ (by rw [List.length_drop]; simp only [List.length_cons] at h ⊢; omega)]
      exact List.take_append_drop k (a :: t)

theorem chunksGo_mem (k : ℕ) (hk : 0 < k) :
    ∀ (fuel : ℕ) (l : List String), l.length ≤ fuel →
      ∀ c ∈ chunksGo k fuel l, c ≠ [] ∧ c.length ≤ k := by
  intro fuel
  induction fuel with
  | zero =>
    intro l h c hc
    have : l = [] := List.length_eq_zero.1 (Nat.le_zero.1 h)
    subst this
    simp [chunksGo_nil] at hc
  | succ f ih =>
    intro l h c hc
    cases l with
    | nil => simp [chunksGo_nil] at hc
    | cons a t =>
      rcases List.mem_cons.1 hc with hc | hc
      · subst hc
        constructor
        · have : 0 < ((a :: t).take k).length := by
            rw [List.length_take]
            simp only [List.length_cons]
            omega
          exact List.length_pos.1 this
        · rw [List.length_take]
          exact min_le_left _ _
      · exact ih _ (by rw [List.length_drop]; simp only [List.length_cons] at h ⊢; omega) c hc

/-- C4: the batch benchmark partitions the endpoint list into consecutive
groups of size `k` (`flatten` of the groups restores the list, every group
is non-empty of size at most `k`, and the groups obey the fixed-size-slice
recurrence), a trial settles every endpoint of every group individually so
no failure aborts a group, and the run uses `min 10 numberOfGroups`
iterations; 12 endpoints with concurrency 5 give 3 groups and 3 iterations. -/
theorem batch_partition :
    (∀ (endpoints : List String) (k : ℕ), 0 < k →
      (chunks k endpoints).flatten = endpoints ∧
      (∀ c ∈ chunks k endpoints, c ≠ [] ∧ c.length ≤ k) ∧
      (chunks k endpoints =
        if endpoints = [] then []
        else endpoints.take k :: chunks k (endpoints.drop k)) ∧
      (∀ get, (batchTrial get (chunks k endpoints)).flatten = endpoints.map get) ∧
      (∀ testFn tt, benchmarkBatchOperations endpoints k testFn tt =
        benchmark (s!"Batch Operations (concurrency: {k})") testFn
          (min 10 (chunks k endpoints).length) tt))
    ∧ ((chunks 5 endpoints12).length = 3 ∧
        min 10 (chunks 5 endpoints12).length = 3) := by
  constructor
  · intro endpoints k hk
    refine ⟨chunksGo_flatten k hk _ _ (Nat.le_refl _),
      chunksGo_mem k hk _ _ (Nat.le_refl _), ?_, ?_, ?_⟩
    · by_cases h : endpoints = []
      · subst h; rfl
      · rw [if_neg h]
        exact chunks_cons k hk endpoints h
    · intro get
      rw [batchTrial, ← List.map_flatten,
        show (chunks k endpoints).flatten = endpoints from
          chunksGo_flatten k hk _ _ (Nat.le_refl _)]
    · intro testFn tt
      rfl
  · exact ⟨by decide, by decide⟩

/-- Witness for C4 at `endpoints12` and concurrency 5. -/
theorem batch_partition_witness :
    (0 < 5) ∧
      ((chunks 5 endpoints12).flatten = endpoints12 ∧
       (∀ c ∈ chunks 5 endpoints12, c ≠ [] ∧ c.length ≤ 5) ∧
       (chunks 5 endpoints12 =
         if endpoints12 = [] then []
         else endpoints12.take 5 :: chunks 5 (endpoints12.drop 5)) ∧
       (∀ get, (batchTrial get (chunks 5 endpoints12)).flatten = endpoints12.map get) ∧
       (∀ testFn tt, benchmarkBatchOperations endpoints12 5 testFn tt =
         benchmark (s!"Batch Operations (concurrency: {(5 : ℕ)})") testFn
           (min 10 (chunks 5 endpoints12).length) tt)) :=
  ⟨by decide, batch_partition.1 endpoints12 5 (by decide)⟩

/-- C6: `analyzeNetwork` is total (the embedding is a function — every probe
failure is already converted to `-1` by the probes, which never throw), its
`totalRoundTrips` always counts every attempted probe of the configured
lists, and when every probe fails both class latencies are the sentinel
`-1` (not `0`) with `totalRoundTrips = 6`. -/
theorem analyzeNetwork_all_fail :
    (∀ facProbe rpcProbe : String → ℚ,
      (analyzeNetwork facProbe rpcProbe).totalRoundTrips =
        facilitators.length + rpcEndpoints.length) ∧
    (∀ facProbe rpcProbe : String → ℚ,
      (∀ u ∈ facilitators, facProbe u = -1) →
      (∀ u ∈ rpcEndpoints, rpcProbe u = -1) →
      analyzeNetwork facProbe rpcProbe =
        { facilitatorLatency := -1, rpcLatency := -1, totalRoundTrips := 6,
          dataTransferred := 0 }) := by
  constructor
  · intro f g
    rfl
  · intro f g hf hg
    have h1 : f "https://facilitator.x402.org" = -1 := hf _ (by simp [facilitators])
    have h2 : f "https://facilitator.thirdweb.com" = -1 := hf _ (by simp [facilitators])
    have h3 : f "https://facilitator.xpay.sh" = -1 := hf _ (by simp [facilitators])
    have h4 : g "https://mainnet.base.org" = -1 := hg _ (by simp [rpcEndpoints])
    have h5 : g "https://base-mainnet.public.blastapi.io" = -1 := hg _ (by simp [rpcEndpoints])
    have h6 : g "https://base.gateway.tenderly.co" = -1 := hg _ (by simp [rpcEndpoints])
    simp [analyzeNetwork, facilitators, rpcEndpoints, h1, h2, h3, h4, h5, h6]

/-- Witness for C6: the constant failing probe. -/
theorem analyzeNetwork_all_fail_witness :
    (∀ u ∈ facilitators, cexRpcProbe u = -1) ∧
    (∀ u ∈ rpcEndpoints, cexRpcProbe u = -1) ∧
      analyzeNetwork cexRpcProbe cexRpcProbe =
        { facilitatorLatency := -1, rpcLatency := -1, totalRoundTrips := 6,
          dataTransferred := 0 } :=
  ⟨fun _ _ => rfl, fun _ _ => rfl,
    analyzeNetwork_all_fail.2 cexRpcProbe cexRpcProbe (fun _ _ => rfl) (fun _ _ => rfl)⟩

/-- Counterexample to C7: the facilitator probes return `[0, 10, -1]` — the
first succeeds with a true zero-latency measurement.  The code's filter
`l > 0` drops the `0`, so the class average is `10`; under the claim (every
non-negative successful latency contributes, per `specClassAverage`) it
would be `(0 + 10) / 2 = 5`. -/
theorem zero_latency_excluded_cex :
    (analyzeNetwork cexFacProbe cexRpcProbe).facilitatorLatency = 10 ∧
    specClassAverage (facilitators.map cexFacProbe) = 5 ∧
    (10 : ℚ) ≠ 5 := by
  refine ⟨?_, ?_, by norm_num⟩
  · simp [analyzeNetwork, facilitators, cexFacProbe, cexRpcProbe]
  · simp [specClassAverage, facilitators, cexFacProbe]
    norm_num

/-- C7 (amended): `analyzeNetwork` averages exactly the strictly positive
probe results — a latency contributes to the class average iff it is `> 0`,
so a zero-latency success is excluded just like the `-1` sentinel — and each
class latency is the mean of those positive results, `-1` when none exist. -/
theorem positive_latency_filter :
    ∀ facProbe rpcProbe : String → ℚ,
      ((analyzeNetwork facProbe rpcProbe).facilitatorLatency =
        if 0 < ((facilitators.map facProbe).filter (fun l => decide (0 < l))).length then
          ((facilitators.map facProbe).filter (fun l => decide (0 < l))).sum /
            (((facilitators.map facProbe).filter (fun l => decide (0 < l))).length : ℚ)
        else -1) ∧
      ((analyzeNetwork facProbe rpcProbe).rpcLatency =
        if 0 < ((rpcEndpoints.map rpcProbe).filter (fun l => decide (0 < l))).length then
          ((rpcEndpoints.map rpcProbe).filter (fun l => decide (0 < l))).sum /
            (((rpcEndpoints.map rpcProbe).filter (fun l => decide (0 < l))).length : ℚ)
        else -1) ∧
      (∀ x : ℚ, x ∈ (facilitators.map facProbe).filter (fun l => decide (0 < l)) ↔
        x ∈ facilitators.map facProbe ∧ 0 < x) := by
  intro f g
  refine ⟨rfl, rfl, ?_⟩
  intro x
  simp [List.mem_filter]

/-- C8: the four rules are evaluated in fixed source order (the output is
always the concatenation of the four rule blocks in table order), and on a
single result with `avgTimeMs = 600`, `errorRate = 0`, `opsPerSecond = 50`
and `facilitatorLatency = 50` exactly the high-average-latency
recommendation is emitted. -/
theorem single_high_latency_rule :
    (∀ results networkMetrics, recommendations results networkMetrics =
      (if avgLatencyHigh results then recsHighLatency else [])
        ++ (if decide (networkMetrics.facilitatorLatency > 200) then recsFacilitator else [])
        ++ (if results.any (fun r => decide (r.errorRate > 5)) then recsErrorRate else [])
        ++ (if maxOpsLow results then recsLowThroughput else [])) ∧
    (∀ (r : BenchmarkResult) networkMetrics,
      r.avgTimeMs = 600 → r.errorRate = 0 → r.opsPerSecond = 50 →
      networkMetrics.facilitatorLatency = 50 →
      recommendations [r] networkMetrics = recsHighLatency) := by
  refine ⟨fun _ _ => rfl, ?_⟩
  intro r m h1 h2 h3 h4
  have ha : avgLatencyHigh [r] = true := by
    simp [avgLatencyHigh, avgLatency, h1]
    norm_num
  have hm : maxOpsLow [r] = false := by
    simp [maxOpsLow, h3]
    norm_num
  simp [recommendations, ha, hm, h2, h4]
  norm_num

/-- Witness for C8 at the high-latency fixture. -/
theorem single_high_latency_rule_witness :
    (highLatencyResult.avgTimeMs = 600 ∧ highLatencyResult.errorRate = 0 ∧
     highLatencyResult.opsPerSecond = 50 ∧ metrics50.facilitatorLatency = 50) ∧
      recommendations [highLatencyResult] metrics50 = recsHighLatency :=
  ⟨⟨rfl, rfl, rfl, rfl⟩,
    single_high_latency_rule.2 highLatencyResult metrics50 rfl rfl rfl rfl⟩

/-- C9: `displayOptimizations` never emits an empty output; whenever no rule
fires it emits exactly the single positive no-action message, in particular
on a result with `avgTimeMs = 50`, `errorRate = 0`, `opsPerSecond = 100`
and `facilitatorLatency = 50`. -/
theorem no_action_message_emitted :
    (∀ results networkMetrics, displayOptimizations results networkMetrics ≠ []) ∧
    (∀ results networkMetrics, recommendations results networkMetrics = [] →
      displayOptimizations results networkMetrics = [noActionMessage]) ∧
    (∀ (r : BenchmarkResult) networkMetrics,
      r.avgTimeMs = 50 → r.errorRate = 0 → r.opsPerSecond = 100 →
      networkMetrics.facilitatorLatency = 50 →
      displayOptimizations [r] networkMetrics = [noActionMessage]) := by
  have hdisp : ∀ results networkMetrics, recommendations results networkMetrics = [] →
      displayOptimizations results networkMetrics = [noActionMessage] := by
    intro results m h
    rw [displayOptimizations]
    simp [h]
  refine ⟨?_, hdisp, ?_⟩
  · intro results m
    rw [displayOptimizations]
    by_cases h : (recommendations results m).isEmpty
    · simp [h]
    · simp [h]
      exact fun hc => absurd (by simp [hc]) h
  · intro r m h1 h2 h3 h4
    apply hdisp
    have ha : avgLatencyHigh [r] = false := by
      simp [avgLatencyHigh, avgLatency, h1]
      norm_num
    have hm : maxOpsLow [r] = false := by
      simp [maxOpsLow, h3]
      norm_num
    simp [recommendations, ha, hm, h2, h4]
    norm_num

/-- Witness for C9 at the good-metrics fixture. -/
theorem no_action_message_emitted_witness :
    (goodResult.avgTimeMs = 50 ∧ goodResult.errorRate = 0 ∧
     goodResult.opsPerSecond = 100 ∧ metrics50.facilitatorLatency = 50) ∧
      displayOptimizations [goodResult] metrics50 = [noActionMessage] :=
  ⟨⟨rfl, rfl, rfl, rfl⟩,
    no_action_message_emitted.2.2 goodResult metrics50 rfl rfl rfl rfl⟩

/-- C10: on an empty result list with `facilitatorLatency ≤ 200` the engine
emits the low-throughput recommendation (the maximum over zero results is
`-Infinity`, embedded as `List.maximum = none`, which is below 10) and not
the positive no-action message (the mean-latency rule cannot fire: in the
source the mean over zero results is `NaN`, whose comparison is false). -/
theorem empty_results_low_throughput :
    ∀ networkMetrics : NetworkMetrics, networkMetrics.facilitatorLatency ≤ 200 →
      recommendations [] networkMetrics = recsLowThroughput ∧
      displayOptimizations [] networkMetrics = recsLowThroughput ∧
      recsLowThroughput ≠ [noActionMessage] := by
  intro m h
  have h2 : ¬ (m.facilitatorLatency > 200) := not_lt.2 h
  have hrec : recommendations [] m = recsLowThroughput := by
    simp [recommendations, avgLatencyHigh, maxOpsLow, h2]
  have hne : recsLowThroughput ≠ [noActionMessage] := by
    intro heq
    have := congrArg List.length heq
    simp [recsLowThroughput, noActionMessage] at this
  refine ⟨hrec, ?_, hne⟩
  rw [displayOptimizations, hrec]
  simp [recsLowThroughput]

/-- Witness for C10 at the `facilitatorLatency = 50` fixture. -/
theorem empty_results_low_throughput_witness :
    metrics50.facilitatorLatency ≤ 200 ∧
      (recommendations [] metrics50 = recsLowThroughput ∧
       displayOptimizations [] metrics50 = recsLowThroughput ∧
       recsLowThroughput ≠ [noActionMessage]) :=
  ⟨by norm_num [metrics50], empty_results_low_throughput metrics50 (by norm_num [metrics50])⟩
